import Mathlib

/-!
Verification of the round-progression and parsing logic of the AI resume
interview backend (src/backend/server.js, current version of the server).

The JavaScript handlers are embedded as pure Lean functions.  Machine
numbers are modelled as exact rationals; the NaN produced by JavaScript
when averaging an empty list is modelled as `none` in `Option ℚ` (a NaN
average serializes to `null` and compares `false` against every
threshold, which the embedding reproduces).  Each HTTP handler is split
into a phase-1 function (everything executed before the outbound model
call; an error result here means the handler responds without ever
calling the model) and a phase-2 function (the response assembled from
the model text).  `parseFloat(x.toFixed(1))` is modelled on exact
rationals as rounding to one decimal with ties toward the larger value,
which is the specified behaviour of `toFixed`.
-/

namespace InterviewServer

/-- Whitespace characters handled by the host language: the characters
removed by trim and matched by the regex whitespace class. -/
def jsWs (c : Char) : Bool :=
  c = ' ' || c = '\t' || c = '\n' || c = '\r' || c = '\x0b' || c = '\x0c'

/-- Model of trim on explicit character lists: drop whitespace from both ends. -/
def jsTrim (cs : List Char) : List Char :=
  ((cs.dropWhile jsWs).reverse.dropWhile jsWs).reverse

/-- Model of split on the newline character: chunks between newlines,
with empty chunks kept, and one chunk for the empty string. -/
def splitLines : List Char → List (List Char)
  | [] => [[]]
  | c :: rest =>
    match splitLines rest with
    | [] => [[]]
    | l :: ls => if c = '\n' then [] :: l :: ls else (c :: l) :: ls

/-- Model of line.replace applied to the enumerator pattern (digits
followed by a dot or a closing parenthesis, then whitespace) anchored at
the start of the line: server.js line 715.  The digit run is maximal, so
the character right after it decides whether the pattern matches. -/
def stripEnum (cs : List Char) : List Char :=
  match cs.takeWhile (fun c => c.isDigit), cs.dropWhile (fun c => c.isDigit) with
  | _ :: _, c :: tail => if c = '.' || c = ')' then tail.dropWhile jsWs else cs
  | _, _ => cs

/-- Model of the question-list extraction, server.js lines 713-716 and
the slice at line 727: split into lines, strip a leading enumerator,
trim, keep lines longer than 10 characters, return at most 5 entries. -/
def extractQuestions (raw : String) : List String :=
  ((((splitLines raw.data).map (fun line => String.mk (jsTrim (stripEnum line)))).filter
    (fun line => line.length > 10)).take 5)

/-- Model of the brace-span regex match used at server.js lines 636, 784
and 930: the span from the first opening brace to the last closing
brace, or none when no such span exists. -/
def extractBrace (cs : List Char) : Option (List Char) :=
  let rest := cs.dropWhile (fun c => c != '{')
  let body := ((rest.drop 1).reverse.dropWhile (fun c => c != '}')).reverse
  if rest.isEmpty || body.isEmpty then none else some ('{' :: body)

/-- Dynamic JSON-like values produced by parsing model output. -/
inductive JVal where
  | str (s : String)
  | num (q : ℚ)
  | bool (b : Bool)
  | null
  | arr (elems : List JVal)
  | obj (fields : List (String × JVal))

/-- Whether a dynamic value is a string, as tested by typeof. -/
def JVal.isString : JVal → Bool
  | .str _ => true
  | _ => false

/-- A parsed JSON object: association list of field name and value. -/
abbrev JObj := List (String × JVal)

/-- Property read on a parsed object. -/
def objGet (o : JObj) (k : String) : Option JVal :=
  (o.find? (fun p => p.1 == k)).map (fun p => p.2)

/-- Property write on a parsed object: replace the value in place when
the key exists, append otherwise.  This is the observable effect of both
a field assignment and a later key in an object spread. -/
def objSet (o : JObj) (k : String) (v : JVal) : JObj :=
  if o.any (fun p => p.1 == k) then
    o.map (fun p => if p.1 == k then (k, v) else p)
  else
    o ++ [(k, v)]

/-- One entry of the static round table, server.js lines 539-558. -/
structure RoundDef where
  name : String
  difficulty : String
  passThreshold : ℚ
  description : String
deriving DecidableEq

/-- Round 1 of ROUND_CONFIG. -/
def round1Def : RoundDef :=
  ⟨"Foundation", "easy", 6, "Core knowledge and fundamentals of the candidates field"⟩

/-- Round 2 of ROUND_CONFIG. -/
def round2Def : RoundDef :=
  ⟨"Application", "medium", 7, "Real-world scenarios and experience-based questions"⟩

/-- Round 3 of ROUND_CONFIG. -/
def round3Def : RoundDef :=
  ⟨"Strategy", "hard", 8, "Advanced problem-solving, leadership, and strategic thinking"⟩

/-- The ROUND_CONFIG lookup by round number: configured ordinals are 1, 2, 3. -/
def ROUND_CONFIG (n : Int) : Option RoundDef :=
  if n = 1 then some round1Def
  else if n = 2 then some round2Def
  else if n = 3 then some round3Def
  else none

/-- Mean via reduce-and-divide, server.js line 826: on an empty list the
division 0/0 yields NaN, modelled as none. -/
def jsMean (xs : List ℚ) : Option ℚ :=
  if xs.isEmpty then none else some (xs.sum / xs.length)

/-- The comparison avgScore greater-or-equal threshold where avgScore
may be NaN (none): NaN compares false. -/
def jsGE (x : Option ℚ) (t : ℚ) : Bool :=
  match x with
  | none => false
  | some v => v ≥ t

/-- parseFloat of toFixed with one digit: round to one decimal place,
ties toward the larger value. -/
def roundTo1 (x : ℚ) : ℚ := (Int.floor (10 * x + 1 / 2) : ℚ) / 10

/-- Truthiness of an optional integer request field: absent and 0 are falsy. -/
def intFieldFalsy (o : Option Int) : Bool :=
  match o with
  | none => true
  | some n => n == 0

/-- Truthiness of an optional string request field: absent and empty are falsy. -/
def strFieldFalsy (o : Option String) : Bool :=
  match o with
  | none => true
  | some s => s == ""

/-- Kind of an error response: status 400 (input validation) versus
status 500 (processing failure, including caught thrown errors). -/
inductive ErrKind where
  | badRequest
  | serverError
deriving DecidableEq

/-- An error response: status kind plus the error message sent. -/
structure ErrResp where
  kind : ErrKind
  message : String
deriving DecidableEq

/-- Request body of the submit-round route; option fields model
possibly-absent JSON fields. -/
structure SubmitRoundReq where
  resumeData : Bool
  roundNumber : Option Int
  questions : Option (List String)
  answers : Option (List String)
  scores : Option (List ℚ)

/-- Values computed by the submit-round handler before its model call. -/
structure SubmitRoundPre where
  round : RoundDef
  rn : Int
  scores : List ℚ
  avgScore : Option ℚ
  roundPassed : Bool
  isLastRound : Bool

/-- Server.js lines 819-832: the part of the submit-round handler that
runs before the model call.  The missing-field check uses truthiness, so
an empty scores array passes it.  An unconfigured nonzero round number
reaches the table lookup, and reading passThreshold from the undefined
result throws; the catch block at line 874 turns that throw into a
status-500 response. -/
def submitRoundPhase1 (req : SubmitRoundReq) : Except ErrResp SubmitRoundPre :=
  if !req.resumeData || intFieldFalsy req.roundNumber || req.questions.isNone
      || req.answers.isNone || req.scores.isNone then
    .error ⟨.badRequest, "Missing required fields"⟩
  else
    let rn := req.roundNumber.getD 0
    match ROUND_CONFIG rn with
    | none =>
      .error ⟨.serverError,
        "Failed to submit round: Cannot read properties of undefined (reading passThreshold)"⟩
    | some round =>
      let scores := req.scores.getD []
      let avg := jsMean scores
      .ok ⟨round, rn, scores, avg, jsGE avg round.passThreshold, rn == 3⟩

/-- Response body of the submit-round route. -/
structure SubmitRoundResp where
  roundNumber : Int
  roundName : String
  averageScore : Option ℚ
  passThreshold : ℚ
  roundPassed : Bool
  canProceed : Bool
  nextRound : Option Int
  isLastRound : Bool
  feedback : String
  scoreBreakdown : List (Nat × ℚ × Bool)
deriving DecidableEq

/-- Server.js lines 855-873: the submit-round response assembled after
the model call returned the feedback text. -/
def submitRoundPhase2 (p : SubmitRoundPre) (feedback : String) : SubmitRoundResp :=
  { roundNumber := p.rn
    roundName := p.round.name
    averageScore := p.avgScore.map roundTo1
    passThreshold := p.round.passThreshold
    roundPassed := p.roundPassed
    canProceed := p.roundPassed && !p.isLastRound
    nextRound := if p.roundPassed && !p.isLastRound then some (p.rn + 1) else none
    isLastRound := p.isLastRound
    feedback := String.mk (jsTrim feedback.data)
    scoreBreakdown := p.scores.enum.map (fun q => (q.1 + 1, q.2, decide (q.2 ≥ p.round.passThreshold))) }

/-- The whole submit-round handler, with the model feedback text as a
parameter of the successful model call. -/
def submitRound (req : SubmitRoundReq) (feedback : String) : Except ErrResp SubmitRoundResp :=
  (submitRoundPhase1 req).map (fun p => submitRoundPhase2 p feedback)

/-- Request body of the generate-questions route. -/
structure GenerateQuestionsReq where
  resumeData : Bool
  roundNumber : Option Int

/-- Server.js lines 656-664: the generate-questions validation performed
before the model call, including the explicit invalid-round check. -/
def generateQuestionsPhase1 (req : GenerateQuestionsReq) : Except ErrResp RoundDef :=
  if !req.resumeData || intFieldFalsy req.roundNumber then
    .error ⟨.badRequest, "Missing resumeData or roundNumber"⟩
  else
    match ROUND_CONFIG (req.roundNumber.getD 0) with
    | none => .error ⟨.badRequest, "Invalid roundNumber. Use 1, 2, or 3"⟩
    | some round => .ok round

/-- Request body of the evaluate-answer route. -/
structure EvaluateAnswerReq where
  question : Option String
  answer : Option String
  resumeData : Bool
  roundNumber : Option Int

/-- Server.js lines 741-750: the evaluate-answer validation performed
before the model call, including the explicit invalid-round check. -/
def evaluateAnswerPhase1 (req : EvaluateAnswerReq) : Except ErrResp RoundDef :=
  if strFieldFalsy req.question || strFieldFalsy req.answer || !req.resumeData
      || intFieldFalsy req.roundNumber then
    .error ⟨.badRequest, "Missing required fields"⟩
  else
    match ROUND_CONFIG (req.roundNumber.getD 0) with
    | none => .error ⟨.badRequest, "Invalid roundNumber"⟩
    | some round => .ok round

/-- Server.js lines 784-789: brace-span extraction from the model text,
with the defined parse-failure error of the evaluate-answer route. -/
def evaluateAnswerExtract (raw : String) : Except ErrResp String :=
  match extractBrace raw.data with
  | none => .error ⟨.serverError, "Could not parse evaluation"⟩
  | some span => .ok (String.mk span)

/-- Server.js lines 792-795 applied to one field: first a bare string is
wrapped in a one-element array, then any remaining non-array value
(absent fields included) becomes the empty array. -/
def normalizeListField (v : Option JVal) : JVal :=
  let v1 : Option JVal :=
    match v with
    | some (.str s) => some (.arr [.str s])
    | other => other
  match v1 with
  | some (.arr l) => .arr l
  | _ => .arr []

/-- Server.js lines 789-805: the parsed evaluation object after the
strengths and weaknesses normalization, with the added roundThreshold
and passedThisQuestion fields written on top of the spread object. -/
def evaluateAnswerPhase2 (round : RoundDef) (evaluation : JObj) : JObj :=
  let e1 := objSet evaluation "strengths" (normalizeListField (objGet evaluation "strengths"))
  let e2 := objSet e1 "weaknesses" (normalizeListField (objGet e1 "weaknesses"))
  let passed : Bool :=
    match objGet e2 "score" with
    | some (.num s) => decide (s ≥ round.passThreshold)
    | _ => false
  objSet (objSet e2 "roundThreshold" (.num round.passThreshold))
    "passedThisQuestion" (.bool passed)

/-- Outcome of the analyze-resume handler. -/
inductive AnalyzeResult where
  | badRequest (msg : String)
  | serverError (msg : String)
  | ok (analysisSpan : String)
deriving DecidableEq

/-- Collaborator behaviour for one analyze-resume request: whether a
file was uploaded, whether pdf extraction succeeds, whether the model
call succeeds, and the model text. -/
structure AnalyzeEnv where
  fileUploaded : Bool
  pdfParseOk : Bool
  modelOk : Bool
  modelText : String

/-- Server.js lines 597-648 as a function of collaborator outcomes.  The
second component records whether the unlink call at line 604 executed,
that is whether the uploaded temp file was deleted before the handler
responded.  The unlink sits after the pdf-parse call and there is no
cleanup in the catch block, so a pdf-extraction failure skips it. -/
def analyzeResume (env : AnalyzeEnv) : AnalyzeResult × Bool :=
  if !env.fileUploaded then
    (.badRequest "No resume uploaded", false)
  else if !env.pdfParseOk then
    (.serverError "Failed to analyze resume: pdf extraction failed", false)
  else
    if !env.modelOk then
      (.serverError "Failed to analyze resume: model call failed", true)
    else
      match extractBrace env.modelText.data with
      | none => (.serverError "Could not parse resume analysis", true)
      | some span => (.ok (String.mk span), true)

/-- One round result supplied to the final-report route. -/
structure RoundResultIn where
  roundNumber : Int
  roundName : String
  averageScore : ℚ
  roundPassed : Bool
deriving DecidableEq

/-- The aggregates computed by the final-report handler. -/
structure FinalCalc where
  roundsPassed : Nat
  overallAvg : Option ℚ
  allPassed : Bool
deriving DecidableEq

/-- Server.js lines 892-894: rounds passed, overall average (NaN for an
empty round list, modelled as none) and the all-passed flag. -/
def finalReportCalc (rounds : List RoundResultIn) : FinalCalc :=
  { roundsPassed := (rounds.filter (fun r => r.roundPassed)).length
    overallAvg := jsMean (rounds.map (fun r => r.averageScore))
    allPassed := (rounds.filter (fun r => r.roundPassed)).length == rounds.length }

/-- Server.js lines 937-946: the returned report object.  The parsed
model object is spread first; the server-side identity fields and the
computed all-passed flag are written on top of it, so they override any
same-named field the model emitted, while every other model field
(overallScore, roundsPassed, totalRounds included) passes through. -/
def finalReportMerge (modelReport : JObj) (name role field : String) (allPassed : Bool) : JObj :=
  objSet (objSet (objSet (objSet modelReport "candidateName" (.str name))
    "roleAssessed" (.str role)) "fieldAssessed" (.str field)) "allPassed" (.bool allPassed)

/-- The final-report handler after a successful model call: computes the
aggregates from the caller round results and merges the identity fields
into the parsed model object. -/
def finalReportHandler (rounds : List RoundResultIn) (modelReport : JObj)
    (name role field : String) : JObj :=
  finalReportMerge modelReport name role field (finalReportCalc rounds).allPassed

/-- Dropping while a predicate holds skips a whole prefix on which it holds. -/
theorem dropWhile_append_all (p : Char → Bool) (l₁ l₂ : List Char)
    (h : ∀ c ∈ l₁, p c = true) : (l₁ ++ l₂).dropWhile p = l₂.dropWhile p := by
  induction l₁ with
  | nil => simp
  | cons a t ih =>
    rw [List.cons_append, List.dropWhile_cons, h a (by simp)]
    exact ih (fun c hc => h c (by simp [hc]))

/-- Property read after a cons. -/
theorem objGet_cons (p : String × JVal) (t : JObj) (k : String) :
    objGet (p :: t) k = if p.1 == k then some p.2 else objGet t k := by
  by_cases hp : p.1 == k <;> simp [objGet, List.find?_cons, hp]

/-- Reading the written key after an in-place replacement. -/
theorem objGet_map_set (k : String) (v : JVal) :
    ∀ o : JObj, o.any (fun p => p.1 == k) = true →
      objGet (o.map (fun p => if p.1 == k then (k, v) else p)) k = some v := by
  intro o
  induction o with
  | nil => intro h; simp at h
  | cons p t ih =>
    intro h
    by_cases hp : p.1 == k
    · rw [List.map_cons, if_pos hp, objGet_cons]
      simp
    · rw [List.map_cons, if_neg hp, objGet_cons, if_neg (by simp [hp])]
      apply ih
      simp only [List.any_cons, Bool.or_eq_true] at h
      rcases h with h | h
      · exact absurd h hp
      · exact h

/-- Reading the written key after an append of the new pair. -/
theorem objGet_append_set (k : String) (v : JVal) :
    ∀ o : JObj, o.any (fun p => p.1 == k) = false →
      objGet (o ++ [(k, v)]) k = some v := by
  intro o
  induction o with
  | nil => intro _; simp [objGet_cons]
  | cons p t ih =>
    intro h
    simp only [List.any_cons, Bool.or_eq_false_iff] at h
    rw [List.cons_append, objGet_cons, if_neg (by simp [h.1])]
    exact ih h.2

/-- Reading the key just written with objSet yields the written value. -/
theorem objGet_objSet_self (o : JObj) (k : String) (v : JVal) :
    objGet (objSet o k v) k = some v := by
  unfold objSet
  cases h : o.any (fun p => p.1 == k) with
  | true => rw [if_pos rfl]; exact objGet_map_set k v o h
  | false => rw [if_neg Bool.false_ne_true]; exact objGet_append_set k v o h

/-- An in-place replacement of key k does not change reads of other keys. -/
theorem objGet_map_set_ne (k q : String) (v : JVal) (hne : q ≠ k) :
    ∀ o : JObj, objGet (o.map (fun p => if p.1 == k then (k, v) else p)) q = objGet o q := by
  intro o
  induction o with
  | nil => rfl
  | cons p t ih =>
    by_cases hp : p.1 == k
    · have hpk : p.1 = k := eq_of_beq hp
      have h1 : ((k : String) == q) = false := beq_eq_false_iff_ne.mpr (fun e => hne e.symm)
      have h2 : (p.1 == q) = false := by rw [hpk]; exact h1
      rw [List.map_cons, if_pos hp, objGet_cons, objGet_cons,
        if_neg (by simp [h1]), if_neg (by simp [h2])]
      exact ih
    · rw [List.map_cons, if_neg hp, objGet_cons, objGet_cons]
      by_cases hq : (p.1 == q) = true
      · rw [if_pos hq, if_pos hq]
      · rw [if_neg hq, if_neg hq]
        exact ih

/-- Appending a pair with key k does not change reads of other keys. -/
theorem objGet_append_set_ne (k q : String) (v : JVal) (hne : q ≠ k) :
    ∀ o : JObj, objGet (o ++ [(k, v)]) q = objGet o q := by
  intro o
  induction o with
  | nil =>
    simp [objGet, List.find?, beq_eq_false_iff_ne.mpr (fun e => hne e.symm)]
  | cons p t ih =>
    rw [List.cons_append, objGet_cons, objGet_cons]
    by_cases hq : p.1 == q
    · simp [hq]
    · simp [hq, ih]

/-- Writing one key with objSet does not change reads of other keys. -/
theorem objGet_objSet_ne (o : JObj) (k q : String) (v : JVal) (hne : q ≠ k) :
    objGet (objSet o k v) q = objGet o q := by
  unfold objSet
  cases h : o.any (fun p => p.1 == k) with
  | true => rw [if_pos rfl]; exact objGet_map_set_ne k q v hne o
  | false => rw [if_neg Bool.false_ne_true]; exact objGet_append_set_ne k q v hne o

/-- The round table returns an entry exactly for ordinals 1, 2, 3. -/
theorem ROUND_CONFIG_cases (rn : Int) (round : RoundDef) (h : ROUND_CONFIG rn = some round) :
    (rn = 1 ∧ round = round1Def) ∨ (rn = 2 ∧ round = round2Def) ∨ (rn = 3 ∧ round = round3Def) := by
  unfold ROUND_CONFIG at h
  split_ifs at h with h1 h2 h3 <;> simp_all

/-- The round table has no entry for an unconfigured ordinal. -/
theorem ROUND_CONFIG_eq_none (rn : Int) (h1 : rn ≠ 1) (h2 : rn ≠ 2) (h3 : rn ≠ 3) :
    ROUND_CONFIG rn = none := by
  unfold ROUND_CONFIG
  rw [if_neg h1, if_neg h2, if_neg h3]

/-- Rounding to one decimal never drops below an integer bound that the
unrounded value meets. -/
theorem roundTo1_ge_int (t : ℤ) (x : ℚ) (h : (t : ℚ) ≤ x) : (t : ℚ) ≤ roundTo1 x := by
  unfold roundTo1
  rw [le_div_iff₀ (by norm_num : (0 : ℚ) < 10)]
  have h2 : ((t * 10 : ℤ) : ℚ) ≤ 10 * x + 1 / 2 := by push_cast; linarith
  have h3 : (t * 10 : ℤ) ≤ Int.floor (10 * x + 1 / 2) := Int.le_floor.mpr h2
  calc (t : ℚ) * 10 = ((t * 10 : ℤ) : ℚ) := by push_cast; ring
    _ ≤ (Int.floor (10 * x + 1 / 2) : ℚ) := by exact_mod_cast h3

/-- With all fields present and a configured round, the submit-round
pre-phase succeeds with the computed values. -/
theorem submitRoundPhase1_ok (scores : List ℚ) (rn : Int) (round : RoundDef)
    (qs ans : List String) (hc : ROUND_CONFIG rn = some round) :
    submitRoundPhase1 ⟨true, some rn, some qs, some ans, some scores⟩ =
      .ok ⟨round, rn, scores, jsMean scores, jsGE (jsMean scores) round.passThreshold, rn == 3⟩ := by
  have hrn : rn ≠ 0 := by
    rcases ROUND_CONFIG_cases rn round hc with ⟨h, _⟩ | ⟨h, _⟩ | ⟨h, _⟩ <;> omega
  have h0 : (rn == 0) = false := beq_eq_false_iff_ne.mpr hrn
  unfold submitRoundPhase1
  simp [intFieldFalsy, h0, hc]

/-- A nonempty score list has the arithmetic-mean jsMean. -/
theorem jsMean_ne_nil (xs : List ℚ) (h : xs ≠ []) :
    jsMean xs = some (xs.sum / xs.length) := by
  unfold jsMean
  rw [if_neg (by simpa using h)]

/-- The normalization step always produces an array value. -/
theorem normalizeListField_arr (v : Option JVal) : ∃ l, normalizeListField v = .arr l := by
  unfold normalizeListField
  cases v with
  | none => exact ⟨[], rfl⟩
  | some w =>
    cases w with
    | str s => exact ⟨[.str s], rfl⟩
    | num q => exact ⟨[], rfl⟩
    | bool b => exact ⟨[], rfl⟩
    | null => exact ⟨[], rfl⟩
    | arr l => exact ⟨l, rfl⟩
    | obj o => exact ⟨[], rfl⟩

/-- The strengths field of the evaluation response is the normalization
of the parsed strengths field. -/
theorem objGet_evaluateAnswerPhase2_strengths (round : RoundDef) (evaluation : JObj) :
    objGet (evaluateAnswerPhase2 round evaluation) "strengths" =
      some (normalizeListField (objGet evaluation "strengths")) := by
  unfold evaluateAnswerPhase2
  rw [objGet_objSet_ne _ _ _ _ (by decide), objGet_objSet_ne _ _ _ _ (by decide),
    objGet_objSet_ne _ _ _ _ (by decide)]
  exact objGet_objSet_self _ _ _

/-- The weaknesses field of the evaluation response is the normalization
of the parsed weaknesses field. -/
theorem objGet_evaluateAnswerPhase2_weaknesses (round : RoundDef) (evaluation : JObj) :
    objGet (evaluateAnswerPhase2 round evaluation) "weaknesses" =
      some (normalizeListField (objGet evaluation "weaknesses")) := by
  unfold evaluateAnswerPhase2
  rw [objGet_objSet_ne _ _ _ _ (by decide), objGet_objSet_ne _ _ _ _ (by decide),
    objGet_objSet_self, objGet_objSet_ne _ _ _ _ (by decide)]

/-- Claim C1, counterexample to the claim as stated.  The claim ties
roundPassed to the returned (rounded) averageScore, but server.js line
827 compares the unrounded mean against the threshold.  For the single
score 6.96 in round 2 (threshold 7) the returned averageScore is 7,
which meets the threshold, yet roundPassed is false: the biconditional
of the claim fails at this input. -/
theorem c1_rounded_boundary_counterexample :
    ∃ resp, submitRound ⟨true, some 2, some ["q"], some ["a"], some [174 / 25]⟩ "fb" = .ok resp ∧
      resp.averageScore = some 7 ∧ resp.passThreshold = 7 ∧
      jsGE resp.averageScore resp.passThreshold = true ∧ resp.roundPassed = false := by
  have hmean : jsMean [(174 : ℚ) / 25] = some (174 / 25) := by norm_num [jsMean]
  have havg : (jsMean [(174 : ℚ) / 25]).map roundTo1 = some 7 := by
    rw [hmean]
    norm_num [roundTo1]
  have hpass : jsGE (jsMean [(174 : ℚ) / 25]) round2Def.passThreshold = false := by
    rw [hmean]
    norm_num [jsGE, round2Def]
  refine ⟨submitRoundPhase2 ⟨round2Def, 2, [174 / 25], jsMean [174 / 25],
      jsGE (jsMean [174 / 25]) round2Def.passThreshold, (2 : Int) == 3⟩ "fb", ?_, ?_, ?_, ?_, ?_⟩
  · unfold submitRound
    rw [submitRoundPhase1_ok [174 / 25] 2 round2Def ["q"] ["a"] (by decide)]
    rfl
  · show (jsMean [(174 : ℚ) / 25]).map roundTo1 = some 7
    exact havg
  · show round2Def.passThreshold = 7
    rfl
  · show jsGE ((jsMean [(174 : ℚ) / 25]).map roundTo1) round2Def.passThreshold = true
    rw [havg]
    norm_num [jsGE, round2Def]
  · show jsGE (jsMean [(174 : ℚ) / 25]) round2Def.passThreshold = false
    exact hpass

/-- Claim C1 (amended): for a nonempty score list and a configured
round, the returned averageScore is the arithmetic mean rounded to one
decimal, roundPassed holds iff the unrounded mean meets the threshold
(so a mean exactly at the threshold passes), and roundPassed implies the
rounded averageScore also meets the threshold; the converse implication
is what fails (see the counterexample). -/
theorem c1_submit_round_scoring_amended (scores : List ℚ) (rn : Int) (round : RoundDef)
    (qs ans : List String) (fb : String)
    (hne : scores ≠ []) (hc : ROUND_CONFIG rn = some round) :
    ∃ resp, submitRound ⟨true, some rn, some qs, some ans, some scores⟩ fb = .ok resp ∧
      resp.averageScore = some (roundTo1 (scores.sum / scores.length)) ∧
      (resp.roundPassed = true ↔ scores.sum / scores.length ≥ round.passThreshold) ∧
      (resp.roundPassed = true → ∀ a, resp.averageScore = some a → a ≥ round.passThreshold) := by
  have hmean := jsMean_ne_nil scores hne
  refine ⟨submitRoundPhase2
      ⟨round, rn, scores, jsMean scores, jsGE (jsMean scores) round.passThreshold, rn == 3⟩ fb,
    ?_, ?_, ?_, ?_⟩
  · unfold submitRound
    rw [submitRoundPhase1_ok scores rn round qs ans hc]
    rfl
  · simp [submitRoundPhase2, hmean]
  · simp [submitRoundPhase2, jsGE, hmean, ge_iff_le]
  · intro hpass a ha
    have hm : round.passThreshold ≤ scores.sum / scores.length := by
      simpa [submitRoundPhase2, jsGE, hmean, ge_iff_le] using hpass
    have haval : a = roundTo1 (scores.sum / scores.length) := by
      simp [submitRoundPhase2, hmean] at ha
      exact ha.symm
    subst haval
    rcases ROUND_CONFIG_cases rn round hc with ⟨_, hr⟩ | ⟨_, hr⟩ | ⟨_, hr⟩ <;> subst hr
    · have h6 : (6 : ℚ) ≤ scores.sum / scores.length := hm
      show (6 : ℚ) ≤ roundTo1 (scores.sum / scores.length)
      exact_mod_cast roundTo1_ge_int 6 _ (by exact_mod_cast h6)
    · have h7 : (7 : ℚ) ≤ scores.sum / scores.length := hm
      show (7 : ℚ) ≤ roundTo1 (scores.sum / scores.length)
      exact_mod_cast roundTo1_ge_int 7 _ (by exact_mod_cast h7)
    · have h8 : (8 : ℚ) ≤ scores.sum / scores.length := hm
      show (8 : ℚ) ≤ roundTo1 (scores.sum / scores.length)
      exact_mod_cast roundTo1_ge_int 8 _ (by exact_mod_cast h8)

/-- Witness for C1: the passing scenario of the specification, round 2
with scores 7, 8, 7, 9, 7 whose mean 7.6 meets threshold 7. -/
theorem c1_submit_round_scoring_witness :
    ([(7 : ℚ), 8, 7, 9, 7] ≠ []) ∧ ROUND_CONFIG 2 = some round2Def ∧
    (∃ resp, submitRound ⟨true, some 2, some ["q"], some ["a"], some [7, 8, 7, 9, 7]⟩ "fb" = .ok resp ∧
      resp.averageScore = some (roundTo1 (([(7 : ℚ), 8, 7, 9, 7]).sum / ([(7 : ℚ), 8, 7, 9, 7]).length)) ∧
      (resp.roundPassed = true ↔
        ([(7 : ℚ), 8, 7, 9, 7]).sum / ([(7 : ℚ), 8, 7, 9, 7]).length ≥ round2Def.passThreshold) ∧
      (resp.roundPassed = true → ∀ a, resp.averageScore = some a → a ≥ round2Def.passThreshold)) :=
  ⟨by decide, by decide,
    c1_submit_round_scoring_amended [7, 8, 7, 9, 7] 2 round2Def ["q"] ["a"] "fb" (by decide) (by decide)⟩

/-- Claim C2 (code bug): a submit-round request with every field present
but an empty score list is not rejected.  The truthy missing-fields
check at line 821 passes for an empty array, so the handler reaches the
model call and responds success with a NaN (serialized null)
averageScore, instead of failing with a validation error before the
model call as the specification requires. -/
theorem c2_empty_scores_not_rejected :
    submitRound ⟨true, some 2, some ["q1"], some ["a1"], some []⟩ "fb" =
      .ok { roundNumber := 2, roundName := "Application", averageScore := none,
            passThreshold := 7, roundPassed := false, canProceed := false, nextRound := none,
            isLastRound := false, feedback := "fb", scoreBreakdown := [] } := rfl

/-- Claim C3 (confirmed): for any submit-round call on a configured
round, canProceed holds iff the round passed and the ordinal is not the
last configured round (3), and nextRound is the successor ordinal
exactly when canProceed holds, absent otherwise. -/
theorem c3_progression (rn : Int) (round : RoundDef) (scores : List ℚ)
    (qs ans : List String) (fb : String) (hc : ROUND_CONFIG rn = some round) :
    ∃ resp, submitRound ⟨true, some rn, some qs, some ans, some scores⟩ fb = .ok resp ∧
      (resp.canProceed = true ↔ resp.roundPassed = true ∧ rn ≠ 3) ∧
      (resp.canProceed = true → resp.nextRound = some (rn + 1)) ∧
      (resp.canProceed = false → resp.nextRound = none) := by
  refine ⟨submitRoundPhase2
      ⟨round, rn, scores, jsMean scores, jsGE (jsMean scores) round.passThreshold, rn == 3⟩ fb,
    ?_, ?_, ?_, ?_⟩
  · unfold submitRound
    rw [submitRoundPhase1_ok scores rn round qs ans hc]
    rfl
  · simp [submitRoundPhase2]
  · intro h
    have hb : (jsGE (jsMean scores) round.passThreshold && !(rn == 3)) = true := h
    simp [submitRoundPhase2, hb]
  · intro h
    have hb : (jsGE (jsMean scores) round.passThreshold && !(rn == 3)) = false := h
    simp [submitRoundPhase2, hb]

/-- Witness for C3: the passing scenario of the specification, round 2
with scores 7, 8, 7, 9, 7: canProceed and nextRound 3. -/
theorem c3_progression_witness :
    ROUND_CONFIG 2 = some round2Def ∧
    (∃ resp, submitRound ⟨true, some 2, some ["q"], some ["a"], some [7, 8, 7, 9, 7]⟩ "fb" = .ok resp ∧
      (resp.canProceed = true ↔ resp.roundPassed = true ∧ (2 : Int) ≠ 3) ∧
      (resp.canProceed = true → resp.nextRound = some (2 + 1)) ∧
      (resp.canProceed = false → resp.nextRound = none)) :=
  ⟨by decide, c3_progression 2 round2Def [7, 8, 7, 9, 7] ["q"] ["a"] "fb" (by decide)⟩

/-- Claim C4 (confirmed): for a nonempty round list, roundsPassed is
the count of rounds with roundPassed true, the overall average is the
mean of the round averages, and allPassed (including the allPassed field
of the returned report object) holds iff every input round passed. -/
theorem c4_final_aggregates (rounds : List RoundResultIn) (hne : rounds ≠ []) :
    (finalReportCalc rounds).roundsPassed = rounds.countP (fun r => r.roundPassed) ∧
    (finalReportCalc rounds).overallAvg =
      some ((rounds.map (fun r => r.averageScore)).sum / rounds.length) ∧
    ((finalReportCalc rounds).allPassed = true ↔ ∀ r ∈ rounds, r.roundPassed = true) ∧
    (∀ (m : JObj) (n ro fi : String),
      objGet (finalReportHandler rounds m n ro fi) "allPassed" =
        some (.bool (finalReportCalc rounds).allPassed)) := by
  refine ⟨?_, ?_, ?_, ?_⟩
  · simp [finalReportCalc, List.countP_eq_length_filter]
  · have hmap : rounds.map (fun r => r.averageScore) ≠ [] := by
      simpa using hne
    show jsMean (rounds.map (fun r => r.averageScore)) =
      some ((rounds.map (fun r => r.averageScore)).sum / rounds.length)
    rw [jsMean_ne_nil _ hmap, List.length_map]
  · constructor
    · intro h
      have hlen : (rounds.filter (fun r => r.roundPassed)).length = rounds.length := by
        have hb : ((rounds.filter (fun r => r.roundPassed)).length == rounds.length) = true := h
        simpa using hb
      have heq : rounds.filter (fun r => r.roundPassed) = rounds :=
        (List.filter_sublist rounds).eq_of_length hlen
      intro r hr
      exact List.filter_eq_self.mp heq r hr
    · intro h
      have heq : rounds.filter (fun r => r.roundPassed) = rounds :=
        List.filter_eq_self.mpr h
      show ((rounds.filter (fun r => r.roundPassed)).length == rounds.length) = true
      rw [heq]
      exact beq_self_eq_true _
  · intro m n ro fi
    unfold finalReportHandler finalReportMerge
    exact objGet_objSet_self _ _ _

/-- Witness for C4: the final scenario of the specification, three
passed rounds with averages 8, 7, 9: roundsPassed 3, overall average 8,
allPassed true. -/
theorem c4_final_aggregates_witness :
    ([(⟨1, "Foundation", 8, true⟩ : RoundResultIn), ⟨2, "Application", 7, true⟩,
        ⟨3, "Strategy", 9, true⟩] ≠ []) ∧
    (finalReportCalc [⟨1, "Foundation", 8, true⟩, ⟨2, "Application", 7, true⟩,
        ⟨3, "Strategy", 9, true⟩]).roundsPassed = 3 ∧
    (finalReportCalc [⟨1, "Foundation", 8, true⟩, ⟨2, "Application", 7, true⟩,
        ⟨3, "Strategy", 9, true⟩]).overallAvg = some 8 ∧
    (finalReportCalc [⟨1, "Foundation", 8, true⟩, ⟨2, "Application", 7, true⟩,
        ⟨3, "Strategy", 9, true⟩]).allPassed = true := by
  have h := c4_final_aggregates [⟨1, "Foundation", 8, true⟩, ⟨2, "Application", 7, true⟩,
    ⟨3, "Strategy", 9, true⟩] (by decide)
  refine ⟨by decide, ?_, ?_, ?_⟩
  · rw [h.1]
    decide
  · rw [h.2.1]
    norm_num
  · exact h.2.2.1.mpr (by decide)

/-- Claim C5, counterexample to the claim as stated.  The claim says
lines shorter than 10 characters are discarded, but the filter at
server.js line 716 keeps only lines strictly longer than 10 characters:
a line of exactly 10 characters is not shorter than 10, yet it is
discarded. -/
theorem c5_length_boundary_counterexample :
    extractQuestions "ABCDEFGHIJ" = [] ∧ ("ABCDEFGHIJ" : String).length = 10 ∧
    ¬(("ABCDEFGHIJ" : String).length < 10) :=
  ⟨by decide, by decide, by decide⟩

/-- Claim C5 (amended): list extraction splits the text into lines,
strips a leading enumerator and surrounding whitespace, discards lines
whose trimmed length is at most 10 characters (not only those shorter
than 10), and returns at most 5 of the remaining entries in their
original order; on the example text only the Gamma line survives (the
stripped Alpha and Beta lines are also at most 10 characters long), and
in particular the short line is excluded. -/
theorem c5_list_extraction_amended (raw : String) :
    (extractQuestions raw).length ≤ 5 ∧
    (∀ q ∈ extractQuestions raw, q.length > 10) ∧
    (extractQuestions raw).Sublist
      ((splitLines raw.data).map (fun line => String.mk (jsTrim (stripEnum line)))) ∧
    extractQuestions "1. Alpha\n2. Beta\nshort\n3. Gamma is a long enough line" =
      ["Gamma is a long enough line"] := by
  refine ⟨?_, ?_, ?_, by decide⟩
  · show ((((splitLines raw.data).map (fun line => String.mk (jsTrim (stripEnum line)))).filter
      (fun line => line.length > 10)).take 5).length ≤ 5
    rw [List.length_take]
    exact min_le_left _ _
  · intro q hq
    have hq2 := (List.take_sublist 5 _).subset hq
    have hq3 := List.of_mem_filter hq2
    simpa using hq3
  · exact (List.take_sublist _ _).trans (List.filter_sublist _)

/-- Witness for C5: on the example text the Gamma entry is kept and the
theorem yields that every kept entry is longer than 10 characters. -/
theorem c5_list_extraction_witness :
    ("Gamma is a long enough line" ∈
      extractQuestions "1. Alpha\n2. Beta\nshort\n3. Gamma is a long enough line") ∧
    ("Gamma is a long enough line" : String).length > 10 :=
  ⟨by decide,
    (c5_list_extraction_amended "1. Alpha\n2. Beta\nshort\n3. Gamma is a long enough line").2.1
      "Gamma is a long enough line" (by decide)⟩

/-- Claim C6 (confirmed): when prose free of braces surrounds a single
brace-delimited payload, the extracted span is exactly that payload; and
when the text contains no opening brace at all, the evaluate-answer
parse step fails with its defined descriptive error response. -/
theorem c6_object_extraction (pre mid post : List Char) (raw2 : String)
    (h1 : '{' ∉ pre) (h2 : '}' ∉ post) (h3 : '{' ∉ raw2.data) :
    extractBrace (pre ++ ('{' :: (mid ++ ['}'])) ++ post) = some ('{' :: (mid ++ ['}'])) ∧
    evaluateAnswerExtract raw2 = .error ⟨.serverError, "Could not parse evaluation"⟩ := by
  constructor
  · have hpre : ∀ c ∈ pre, ((fun c => c != '{') c) = true := by
      intro c hc
      simp only [bne_iff_ne, ne_eq]
      exact fun e => h1 (e ▸ hc)
    have hpost : ∀ c ∈ post.reverse, ((fun c => c != '}') c) = true := by
      intro c hc
      rw [List.mem_reverse] at hc
      simp only [bne_iff_ne, ne_eq]
      exact fun e => h2 (e ▸ hc)
    have hrest : (pre ++ ('{' :: (mid ++ ['}'])) ++ post).dropWhile (fun c => c != '{')
        = '{' :: ((mid ++ ['}']) ++ post) := by
      rw [List.append_assoc, List.cons_append, dropWhile_append_all _ pre _ hpre,
        List.dropWhile_cons]
      simp
    have hbody : ((((mid ++ ['}']) ++ post).reverse).dropWhile (fun c => c != '}')).reverse
        = mid ++ ['}'] := by
      rw [List.reverse_append, dropWhile_append_all _ post.reverse _ hpost,
        List.reverse_append]
      simp [List.dropWhile_cons]
    have hne2 : ((mid ++ ['}']).isEmpty) = false := by
      simp [List.isEmpty_iff]
    simp only [extractBrace]
    rw [hrest]
    simp only [List.drop_succ_cons, List.drop_zero]
    rw [hbody, hne2]
    simp
  · have hall : ∀ c ∈ raw2.data, ((fun c => c != '{') c) = true := by
      intro c hc
      simp only [bne_iff_ne, ne_eq]
      exact fun e => h3 (e ▸ hc)
    have hnil : raw2.data.dropWhile (fun c => c != '{') = [] := by
      have h := dropWhile_append_all (fun c => c != '{') raw2.data [] hall
      simpa using h
    have hnone : extractBrace raw2.data = none := by
      simp only [extractBrace]
      rw [hnil]
      simp
    simp [evaluateAnswerExtract, hnone]

/-- Witness for C6: the concrete payload between prose is recovered, and
a brace-free text produces the defined error. -/
theorem c6_object_extraction_witness :
    ('{' ∉ ("see: ".data) ∧ '}' ∉ (" done".data) ∧ '{' ∉ (("no braces at all" : String).data)) ∧
    (extractBrace ("see: ".data ++ ('{' :: ("a: 1".data ++ ['}'])) ++ " done".data) =
        some ('{' :: ("a: 1".data ++ ['}'])) ∧
      evaluateAnswerExtract "no braces at all" =
        .error ⟨.serverError, "Could not parse evaluation"⟩) :=
  ⟨⟨by decide, by decide, by decide⟩,
    c6_object_extraction "see: ".data "a: 1".data " done".data "no braces at all"
      (by decide) (by decide) (by decide)⟩

/-- Claim C7, counterexample to the claim as stated.  For the submit
round route an unconfigured ordinal such as 4 is not rejected with an
input-validation (400) error: there is no invalid-round check in that
handler, the round lookup yields undefined and reading its threshold
throws, which the catch block reports as a processing (500) failure. -/
theorem c7_submit_round_counterexample :
    submitRound ⟨true, some 4, some ["q"], some ["a"], some [8]⟩ "fb" =
      .error ⟨.serverError,
        "Failed to submit round: Cannot read properties of undefined (reading passThreshold)"⟩ ∧
    ErrKind.serverError ≠ ErrKind.badRequest :=
  ⟨rfl, by decide⟩

/-- Claim C7 (amended): for an ordinal that is not configured,
generate-questions and evaluate-answer reject the request with an
input-validation (400) error before any model call; submit-round also
makes no model call, but only ordinal 0 is caught by its missing-field
truthiness check (400), while any other unconfigured ordinal crashes the
round lookup and is reported as a processing (500) error instead. -/
theorem c7_invalid_round_amended (rn : Int) (qs ans : List String) (sc : List ℚ)
    (q a : String) (hq : q ≠ "") (ha : a ≠ "")
    (h1 : rn ≠ 1) (h2 : rn ≠ 2) (h3 : rn ≠ 3) :
    (∃ m, generateQuestionsPhase1 ⟨true, some rn⟩ = .error ⟨.badRequest, m⟩) ∧
    (∃ m, evaluateAnswerPhase1 ⟨some q, some a, true, some rn⟩ = .error ⟨.badRequest, m⟩) ∧
    (rn = 0 → submitRoundPhase1 ⟨true, some rn, some qs, some ans, some sc⟩ =
      .error ⟨.badRequest, "Missing required fields"⟩) ∧
    (rn ≠ 0 → submitRoundPhase1 ⟨true, some rn, some qs, some ans, some sc⟩ =
      .error ⟨.serverError,
        "Failed to submit round: Cannot read properties of undefined (reading passThreshold)"⟩) := by
  have hnone := ROUND_CONFIG_eq_none rn h1 h2 h3
  have hqf : strFieldFalsy (some q) = false := by
    simp [strFieldFalsy, hq]
  have haf : strFieldFalsy (some a) = false := by
    simp [strFieldFalsy, ha]
  refine ⟨?_, ?_, ?_, ?_⟩
  · by_cases h0 : rn = 0
    · exact ⟨"Missing resumeData or roundNumber",
        by simp [generateQuestionsPhase1, intFieldFalsy, h0]⟩
    · refine ⟨"Invalid roundNumber. Use 1, 2, or 3", ?_⟩
      have hb : (rn == 0) = false := beq_eq_false_iff_ne.mpr h0
      simp [generateQuestionsPhase1, intFieldFalsy, hb, hnone]
  · by_cases h0 : rn = 0
    · exact ⟨"Missing required fields",
        by simp [evaluateAnswerPhase1, intFieldFalsy, h0, hqf, haf]⟩
    · refine ⟨"Invalid roundNumber", ?_⟩
      have hb : (rn == 0) = false := beq_eq_false_iff_ne.mpr h0
      simp [evaluateAnswerPhase1, intFieldFalsy, hb, hnone, hqf, haf]
  · intro h0
    simp [submitRoundPhase1, intFieldFalsy, h0]
  · intro h0
    have hb : (rn == 0) = false := beq_eq_false_iff_ne.mpr h0
    simp [submitRoundPhase1, intFieldFalsy, hb, hnone]

/-- Witness for C7: ordinal 4 with nonempty fields. -/
theorem c7_invalid_round_witness :
    (("q0" : String) ≠ "" ∧ ("a0" : String) ≠ "" ∧
      (4 : Int) ≠ 1 ∧ (4 : Int) ≠ 2 ∧ (4 : Int) ≠ 3) ∧
    ((∃ m, generateQuestionsPhase1 ⟨true, some 4⟩ = .error ⟨.badRequest, m⟩) ∧
      (∃ m, evaluateAnswerPhase1 ⟨some "q0", some "a0", true, some 4⟩ = .error ⟨.badRequest, m⟩) ∧
      ((4 : Int) = 0 → submitRoundPhase1 ⟨true, some 4, some ["q"], some ["a"], some [8]⟩ =
        .error ⟨.badRequest, "Missing required fields"⟩) ∧
      ((4 : Int) ≠ 0 → submitRoundPhase1 ⟨true, some 4, some ["q"], some ["a"], some [8]⟩ =
        .error ⟨.serverError,
          "Failed to submit round: Cannot read properties of undefined (reading passThreshold)"⟩)) :=
  ⟨⟨by decide, by decide, by decide, by decide, by decide⟩,
    c7_invalid_round_amended 4 ["q"] ["a"] [8] "q0" "a0" (by decide) (by decide)
      (by decide) (by decide) (by decide)⟩

/-- Claim C8, counterexample to the claim as stated.  The claim says the
strengths and weaknesses fields are always lists of strings, but the
normalization only guarantees arrays: a model-supplied array is passed
through without checking its element types, so an array holding a number
survives unchanged. -/
theorem c8_nonstring_elements_counterexample :
    objGet (evaluateAnswerPhase2 round1Def
        [("strengths", .arr [.num 3]), ("weaknesses", .str "w"), ("score", .num 5)]) "strengths" =
      some (.arr [.num 3]) ∧
    JVal.isString (.num 3) = false := by
  constructor
  · rw [objGet_evaluateAnswerPhase2_strengths]
    rfl
  · rfl

/-- Claim C8 (amended): the strengths and weaknesses fields of the
returned evaluation are always lists; a bare string in either field is
wrapped into a one-element list, and any other non-list value becomes
the empty list; element types of a model-supplied list are not
checked. -/
theorem c8_normalized_lists_amended (round : RoundDef) (evaluation : JObj) :
    (∃ l, objGet (evaluateAnswerPhase2 round evaluation) "strengths" = some (.arr l)) ∧
    (∃ l, objGet (evaluateAnswerPhase2 round evaluation) "weaknesses" = some (.arr l)) ∧
    (∀ s, objGet evaluation "strengths" = some (.str s) →
      objGet (evaluateAnswerPhase2 round evaluation) "strengths" = some (.arr [.str s])) ∧
    (∀ s, objGet evaluation "weaknesses" = some (.str s) →
      objGet (evaluateAnswerPhase2 round evaluation) "weaknesses" = some (.arr [.str s])) := by
  refine ⟨?_, ?_, ?_, ?_⟩
  · rw [objGet_evaluateAnswerPhase2_strengths]
    obtain ⟨l, hl⟩ := normalizeListField_arr (objGet evaluation "strengths")
    exact ⟨l, by rw [hl]⟩
  · rw [objGet_evaluateAnswerPhase2_weaknesses]
    obtain ⟨l, hl⟩ := normalizeListField_arr (objGet evaluation "weaknesses")
    exact ⟨l, by rw [hl]⟩
  · intro s hs
    rw [objGet_evaluateAnswerPhase2_strengths, hs]
    rfl
  · intro s hs
    rw [objGet_evaluateAnswerPhase2_weaknesses, hs]
    rfl

/-- Witness for C8: a parsed evaluation carrying bare strings in both
fields ends up with one-element lists. -/
theorem c8_normalized_lists_witness :
    objGet ([("strengths", JVal.str "good"), ("weaknesses", JVal.str "bad")] : JObj)
      "strengths" = some (.str "good") ∧
    objGet (evaluateAnswerPhase2 round1Def
        [("strengths", JVal.str "good"), ("weaknesses", JVal.str "bad")]) "strengths" =
      some (.arr [.str "good"]) :=
  ⟨rfl, (c8_normalized_lists_amended round1Def
      [("strengths", JVal.str "good"), ("weaknesses", JVal.str "bad")]).2.2.1 "good" rfl⟩

/-- Claim C9 (code bug): the temp file is deleted on the success, model
failure and parse failure paths, because the unlink at line 604 runs
right after pdf extraction; but when pdf extraction itself fails, the
throw skips the unlink and the catch block performs no cleanup, so the
acquired temp file is not deleted on that exit path, contradicting the
release-on-every-exit-path contract of the specification. -/
theorem c9_temp_file_paths :
    (analyzeResume ⟨true, false, true, "irrelevant"⟩).2 = false ∧
    (analyzeResume ⟨true, false, true, "irrelevant"⟩).1 =
      .serverError "Failed to analyze resume: pdf extraction failed" ∧
    (analyzeResume ⟨true, true, false, "irrelevant"⟩).2 = true ∧
    (analyzeResume ⟨true, true, true, "no braces here"⟩).2 = true ∧
    (analyzeResume ⟨true, true, true, "prose {x} prose"⟩).2 = true :=
  ⟨rfl, rfl, rfl, by decide, by decide⟩

/-- Claim C10 (confirmed): in the returned final report the allPassed,
candidateName, roleAssessed and fieldAssessed fields come from the
server computation and the caller input, overriding any same-named model
field, while overallScore, roundsPassed and totalRounds pass through
verbatim from the parsed model object; in particular a model object
reporting overallScore 0 for a round list whose computed mean is 8 is
returned unchanged. -/
theorem c10_report_field_provenance (modelReport : JObj) (rounds : List RoundResultIn)
    (name role field : String) :
    objGet (finalReportHandler rounds modelReport name role field) "allPassed" =
      some (.bool (finalReportCalc rounds).allPassed) ∧
    objGet (finalReportHandler rounds modelReport name role field) "candidateName" =
      some (.str name) ∧
    objGet (finalReportHandler rounds modelReport name role field) "roleAssessed" =
      some (.str role) ∧
    objGet (finalReportHandler rounds modelReport name role field) "fieldAssessed" =
      some (.str field) ∧
    (∀ v, objGet modelReport "overallScore" = some v →
      objGet (finalReportHandler rounds modelReport name role field) "overallScore" = some v) ∧
    (∀ v, objGet modelReport "roundsPassed" = some v →
      objGet (finalReportHandler rounds modelReport name role field) "roundsPassed" = some v) ∧
    (∀ v, objGet modelReport "totalRounds" = some v →
      objGet (finalReportHandler rounds modelReport name role field) "totalRounds" = some v) ∧
    (objGet (finalReportHandler [⟨1, "Foundation", 8, true⟩] [("overallScore", JVal.num 0)]
        "n" "r" "f") "overallScore" = some (.num 0) ∧
      (finalReportCalc [⟨1, "Foundation", 8, true⟩]).overallAvg = some 8 ∧ (0 : ℚ) ≠ 8) := by
  unfold finalReportHandler finalReportMerge
  refine ⟨objGet_objSet_self _ _ _, ?_, ?_, ?_, ?_, ?_, ?_, ?_, ?_, ?_⟩
  · rw [objGet_objSet_ne _ _ _ _ (by decide), objGet_objSet_ne _ _ _ _ (by decide),
      objGet_objSet_ne _ _ _ _ (by decide)]
    exact objGet_objSet_self _ _ _
  · rw [objGet_objSet_ne _ _ _ _ (by decide), objGet_objSet_ne _ _ _ _ (by decide)]
    exact objGet_objSet_self _ _ _
  · rw [objGet_objSet_ne _ _ _ _ (by decide)]
    exact objGet_objSet_self _ _ _
  · intro v hv
    rw [objGet_objSet_ne _ _ _ _ (by decide), objGet_objSet_ne _ _ _ _ (by decide),
      objGet_objSet_ne _ _ _ _ (by decide), objGet_objSet_ne _ _ _ _ (by decide)]
    exact hv
  · intro v hv
    rw [objGet_objSet_ne _ _ _ _ (by decide), objGet_objSet_ne _ _ _ _ (by decide),
      objGet_objSet_ne _ _ _ _ (by decide), objGet_objSet_ne _ _ _ _ (by decide)]
    exact hv
  · intro v hv
    rw [objGet_objSet_ne _ _ _ _ (by decide), objGet_objSet_ne _ _ _ _ (by decide),
      objGet_objSet_ne _ _ _ _ (by decide), objGet_objSet_ne _ _ _ _ (by decide)]
    exact hv
  · rfl
  · norm_num [finalReportCalc, jsMean]
  · norm_num

/-- Witness for C10: a concrete model object with overallScore 2 is
passed through while the candidate name is taken from the caller. -/
theorem c10_report_field_provenance_witness :
    objGet ([("overallScore", JVal.num 2)] : JObj) "overallScore" = some (JVal.num 2) ∧
    objGet (finalReportHandler [⟨1, "Foundation", 5, false⟩] [("overallScore", JVal.num 2)]
      "Ada" "Dev" "Tech") "candidateName" = some (.str "Ada") ∧
    objGet (finalReportHandler [⟨1, "Foundation", 5, false⟩] [("overallScore", JVal.num 2)]
      "Ada" "Dev" "Tech") "overallScore" = some (JVal.num 2) :=
  ⟨rfl,
    (c10_report_field_provenance [("overallScore", JVal.num 2)] [⟨1, "Foundation", 5, false⟩]
      "Ada" "Dev" "Tech").2.1,
    (c10_report_field_provenance [("overallScore", JVal.num 2)] [⟨1, "Foundation", 5, false⟩]
      "Ada" "Dev" "Tech").2.2.2.2.1 (JVal.num 2) rfl⟩

end InterviewServer
